import Mathlib

/-!
Verification of core behaviors of the snowflake proxy/client.

The definitions below are shallow embeddings of the Go source:

* client-ID framing: `packetClientIDConn.Write` (client side) and
  `packetConnIDConnServer.Read` / `packetConnIDConnServer.Write` (server side);
* the proxy's bounded HTTP response reader `limitedRead` and its use in
  `SignalingServer.Post`;
* the `numClients` rounding in `SignalingServer.pollOffer`;
* the NAT probe `SnowflakeProxy.checkNATType` and its callers in
  `SnowflakeProxy.Start`;
* `SnowflakeProxy.Stop`;
* `MultiplexingPacketConn.WriteTo` and `MultiplexingPacketConn.closeWithError`;
* the polling loop `SignalingServer.pollOffer` and the relay-URL gate in
  `SnowflakeProxy.runSession`.

Byte slices are modelled as `List Nat`, Go `int` results that may be negative
as `Int`, Go errors as `Option String` (`none` = nil error), and panics /
out-of-range slice operations as `Option`-valued partiality.
-/

/- ### Client-ID framing (src/unnamed/part_001 and src/unnamed/part_002) -/

/-- Client-side connection state of `packetClientIDConn`:
`packetClientIDConn_StateNew` before the server has acknowledged the client ID,
`packetClientIDConn_StateConnectionIDAcknowledged` afterwards. -/
inductive ClientState where
  | stateNew
  | acknowledged
deriving DecidableEq

/-- Client-side `packetClientIDConn`: its state and its 8-byte client ID
(`ConnID`, a `turbotunnel.ClientID`, i.e. `[8]byte`). -/
structure ClientConn where
  state : ClientState
  connID : List Nat
deriving DecidableEq

/-- `packetClientIDConn.Write` (src/unnamed/part_001 lines 33-57), success path:
returns the packet handed to `transport.Write` together with the count the
method returns.  In state `New` the packet is `0xfe` followed by the 8-byte
`ConnID` then the payload; in state `Acknowledged` it is `0xff` followed by
the payload; either way the returned count is `len(p)`.  (When the transport
write fails the Go method returns `(0, err)`; transport failure is outside
this model.) -/
def clientWrite (c : ClientConn) (p : List Nat) : List Nat × Nat :=
  match c.state with
  | .acknowledged => (0xff :: p, p.length)
  | .stateNew => (0xfe :: (c.connID ++ p), p.length)

/-- Server-side `packetConnIDConnServer` state: the captured connection ID and
the `clientIDReceived` flag. -/
structure ServerConn where
  connID : List Nat
  clientIDReceived : Bool
deriving DecidableEq

/-- `packetConnIDConnServer.Read` (src/unnamed/part_002 lines 28-44), for a
successful underlying `Conn.Read` that filled the caller's buffer `buf` with
`n` bytes (`buf` is the full buffer contents after that read, so `n ≤
buf.length`).  Returns the count returned by `Read` (an `Int`, since the Go
code computes `n - 9` or `n - 1` without a lower bound check), the buffer
contents after the in-place `copy` shifts, and the updated connection state.
`none` models a Go panic: indexing `buf[0]` on an empty buffer, or slicing
`buf[1:9]` when the buffer is shorter than 9 bytes. -/
def serverRead (c : ServerConn) (buf : List Nat) (n : Nat) :
    Option (Int × List Nat × ServerConn) :=
  match buf with
  | [] => none
  | b :: _ =>
    if b = 0xfe then
      if buf.length < 9 then none
      else
        some ((n : Int) - 9,
          buf.drop 9 ++ buf.drop (buf.length - 9),
          { connID := (buf.drop 1).take 8, clientIDReceived := true })
    else if b = 0xff then
      some ((n : Int) - 1, buf.drop 1 ++ buf.drop (buf.length - 1), c)
    else
      some (0, buf, c)

/-- `packetConnIDConnServer.Write` (src/unnamed/part_002 lines 46-52):
the packet sent on the underlying conn, the count the method returns (an
`Int`: the Go code returns `len(buf) - 1`), and the returned error.  The
`transportErr` flag is the underlying `Conn.Write` failing, in which case the
method returns `(0, err)`. -/
def serverWrite (buf : List Nat) (transportErr : Bool) :
    List Nat × Int × Option String :=
  if transportErr then (0xff :: buf, 0, some "write error")
  else (0xff :: buf, (buf.length : Int) - 1, none)

/- ### Bounded response reading (src/proxy/lib/snowflake.go) -/

/-- `readLimit` (src/proxy/lib/snowflake.go line 83): maximum number of bytes
to be read from an HTTP response. -/
def readLimit : Nat := 100000

/-- `limitedRead` (src/proxy/lib/snowflake.go lines 171-179) over a reader
that yields exactly `data` and then EOF with no read error: `io.ReadAll` of
`io.LimitedReader{R: r, N: limit+1}` yields the first `limit+1` bytes; if
exactly `limit+1` bytes came back, the first `limit` are returned together
with `io.ErrUnexpectedEOF`. -/
def limitedRead (data : List Nat) (limit : Nat) : List Nat × Option String :=
  let p := data.take (limit + 1)
  if p.length = limit + 1 then (p.take limit, some "unexpected EOF")
  else (p, none)

/-- The final step of `SignalingServer.Post` (src/proxy/lib/snowflake.go lines
204-220): a 200-status response body is read with `limitedRead(resp.Body,
readLimit)`. -/
def postReadBody (body : List Nat) : List Nat × Option String :=
  limitedRead body readLimit

/- ### numClients rounding (src/proxy/lib/snowflake.go line 236) -/

/-- The `numClients` value sent in a broker poll request:
`int((tokens.count() / 8) * 8)` where `tokens.count()` is the in-flight token
count (a nonnegative count per the token pool contract). -/
def numClients (inFlight : Nat) : Nat :=
  inFlight / 8 * 8

/- ### NAT type probing (src/proxy/lib/snowflake.go) -/

/-- The process-wide NAT classification (`NATUnknown`, `NATRestricted`,
`NATUnrestricted`), initial value `NATUnknown`. -/
inductive NATType where
  | unknown
  | restricted
  | unrestricted
deriving DecidableEq

/-- The externally determined outcome of one run of
`SnowflakeProxy.checkNATType` (src/proxy/lib/snowflake.go lines 752-812):
either some step before the `select` on the data channel fails (probe URL
parsing, peer connection setup, offer encoding, the HTTP POST, answer
decoding, or setting the remote description), or the probe data channel opens
before the 20-second timeout, or the timeout fires first. -/
inductive ProbeOutcome where
  | earlyError
  | channelOpened
  | timedOut
deriving DecidableEq

/-- `SnowflakeProxy.checkNATType`: given the current process-wide NAT state
and the probe outcome, the NAT state when the method returns and whether the
method returned a non-nil error.  Every early-error path returns the error
without touching the state; the `select` sets `NATUnrestricted` when the data
channel opened and `NATRestricted` on timeout, then the method returns nil. -/
def checkNATType (st : NATType) (r : ProbeOutcome) : NATType × Bool :=
  match r with
  | .earlyError => (st, true)
  | .channelOpened => (NATType.unrestricted, false)
  | .timedOut => (NATType.restricted, false)

/-- The initial NAT probe in `SnowflakeProxy.Start` (src/proxy/lib/snowflake.go
lines 704-709): it runs `checkNATType` and, when that returns an error, logs
it and calls `setCurrentNATType(NATUnknown)`. -/
def startInitialNATProbe (st : NATType) (r : ProbeOutcome) : NATType :=
  let res := checkNATType st r
  if res.2 then NATType.unknown else res.1

/-- The periodic NAT retest registered in `SnowflakeProxy.Start` (the
`task.Periodic` whose `Execute` calls `sf.checkNATType` and discards its
error, returning nil): the state after one periodic retest. -/
def periodicNATRetest (st : NATType) (r : ProbeOutcome) : NATType :=
  (checkNATType st r).1

/- ### Proxy shutdown (src/proxy/lib/snowflake.go lines 744-747) -/

/-- Go's `close` on an unbuffered signalling channel, applied to the channel's
closed-flag: closing an open channel closes it; closing an already-closed
channel panics (`none`). -/
def closeChan (isClosed : Bool) : Option Bool :=
  if isClosed then none else some true

/-- `SnowflakeProxy.Stop`: its entire body is `close(sf.shutdown)`.  The
argument is whether `sf.shutdown` is already closed; the result is the new
closed-flag, or `none` when `close` panics on an already-closed channel. -/
def stop (shutdownClosed : Bool) : Option Bool :=
  closeChan shutdownClosed

/- ### MultiplexingPacketConn (src/common/turbotunnel/multiplexingpacketconn.go) -/

/-- A Go `net.OpError` as far as this model needs it: the operation name and
the wrapped error string. -/
structure OpError where
  op : String
  err : String
deriving DecidableEq

/-- The state of a `MultiplexingPacketConn` relevant to `WriteTo` and
`closeWithError`: whether the `closed` channel has been closed, the error
stored in `c.err` (set exactly once, by `closeWithError`), the buffered send
queue contents and the queue's channel capacity (`queueSize`). -/
structure MPConn where
  closed : Bool
  storedErr : Option String
  sendQueue : List (List Nat)
  queueCap : Nat
deriving DecidableEq

/-- `MultiplexingPacketConn.WriteTo` (lines 201-217): if the conn is closed it
returns `(0, &net.OpError{Op: "write", ..., Err: c.err.Load().(error)})` —
`none` models the (unreachable) type-assertion panic when no error was ever
stored; otherwise it copies `p` and offers it to the send queue, returning
`(len(p), nil)` both when the queue accepts the packet and when the packet is
dropped because the queue is full. -/
def writeTo (c : MPConn) (p : List Nat) :
    Option ((Nat × Option OpError) × MPConn) :=
  if c.closed then
    match c.storedErr with
    | none => none
    | some e => some ((0, some ⟨"write", e⟩), c)
  else if c.sendQueue.length < c.queueCap then
    some ((p.length, none), { c with sendQueue := c.sendQueue ++ [p] })
  else
    some ((p.length, none), c)

/-- `MultiplexingPacketConn.closeWithError` (lines 221-237): the first call
stores the given error (or `"operation on closed connection"` when it is nil)
in `c.err`, closes the `closed` channel and returns nil; a later call leaves
the state alone and returns an `OpError` wrapping the stored error (`none`
models the unreachable nil type assertion). -/
def closeWithError (c : MPConn) (e : Option String) :
    Option (MPConn × Option OpError) :=
  if c.closed then
    match c.storedErr with
    | none => none
    | some prev => some (c, some ⟨"close", prev⟩)
  else
    some ({ c with
              closed := true,
              storedErr := some (e.getD "operation on closed connection") },
          none)

/- ### Broker polling and the relay-URL gate (src/proxy/lib/snowflake.go) -/

/-- What one iteration of the polling loop in `SignalingServer.pollOffer`
(lines 224-266) observes from its environment:

* `shutdownSignal` — the `sf.shutdown` channel is closed when the iteration
  starts (the `select` takes that branch);
* `decodeError` — the broker response fails
  `messages.DecodePollResponseWithRelayURL` (this is also the path taken when
  the `Post` itself failed, since decoding the nil response then fails);
* `response offer relayURL sdpOk` — the response decodes to the given offer
  and relay URL; `sdpOk` tells whether
  `util.DeserializeSessionDescription(offer)` would succeed. -/
inductive BrokerResp where
  | shutdownSignal
  | decodeError
  | response (offer relayURL : String) (sdpOk : Bool)
deriving DecidableEq

/-- `SignalingServer.pollOffer` run against the scripted sequence of iteration
observations `resps`: on shutdown or a decode error it returns `(nil, "")`
(`none`); on an empty offer it waits for the 5-second ticker and loops; on a
non-empty offer it returns the offer and relay URL if the SDP deserializes,
and `(nil, "")` otherwise.  An exhausted script is the shutdown channel
closing with no further broker contact. -/
def pollOffer : List BrokerResp → Option (String × String)
  | [] => none
  | r :: rest =>
    match r with
    | .shutdownSignal => none
    | .decodeError => none
    | .response offer relayURL sdpOk =>
      if offer == "" then pollOffer rest
      else if sdpOk then some (offer, relayURL) else none

/-- Outcome of the part of `SnowflakeProxy.runSession` (lines 589-611) from
the `pollOffer` call through the relay-URL gate: either `tokens.ret()` was
called and the method returned before `broker.sendAnswer` (no answer sent),
or control proceeded past the gate to `makePeerConnectionFromOffer`. -/
inductive GateOutcome where
  | retTokenNoAnswer
  | proceedPastGate
deriving DecidableEq

/-- The poll-and-gate phase of `SnowflakeProxy.runSession`: polls, then parses
the relay URL (`parse` is `url.Parse` restricted to the hostname and scheme,
`none` for a parse error), then applies the gate
`relayURL != "" && (!matcher.IsMember(host) || (!sf.AllowNonTLSRelay && scheme != "wss"))`.
`isMember` is the opaque name-matcher built from
`sf.RelayDomainNamePattern`, `allowNonTLS` is `sf.AllowNonTLSRelay`. -/
def runSessionGate (resps : List BrokerResp)
    (parse : String → Option (String × String))
    (isMember : String → Bool) (allowNonTLS : Bool) : GateOutcome :=
  match pollOffer resps with
  | none => GateOutcome.retTokenNoAnswer
  | some (_, relayURL) =>
    match parse relayURL with
    | none => GateOutcome.retTokenNoAnswer
    | some (host, scheme) =>
      if relayURL != "" && (!(isMember host) || (!allowNonTLS && scheme != "wss"))
      then GateOutcome.retTokenNoAnswer
      else GateOutcome.proceedPastGate

/- ### Helper lemmas -/

/-- A server `Read` of a well-formed `0xfe` packet: with an 8-byte connection
ID at the front of the buffer tail, the ID is captured, the flag set, and the
remaining buffer starts with the bytes that followed the ID. -/
theorem serverRead_fe (c : ServerConn) (C rest : List Nat) (n : Nat)
    (hC : C.length = 8) :
    ∃ tail, serverRead c (0xfe :: (C ++ rest)) n
      = some ((n : Int) - 9, rest ++ tail, ⟨C, true⟩) := by
  have hdrop : (C ++ rest).drop 8 = rest := by
    rw [← hC]; exact List.drop_left _ _
  have htake : (C ++ rest).take 8 = C := by
    rw [← hC]; exact List.take_left _ _
  have hlt : ¬((0xfe :: (C ++ rest)).length < 9) := by
    simp only [List.length_cons, List.length_append, hC]
    omega
  have e1 : (0xfe :: (C ++ rest)).drop 9 = rest := by
    rw [show (0xfe :: (C ++ rest)).drop 9 = (C ++ rest).drop 8 from rfl, hdrop]
  have e2 : ((0xfe :: (C ++ rest)).drop 1).take 8 = C := by
    rw [show (0xfe :: (C ++ rest)).drop 1 = C ++ rest from rfl, htake]
  refine ⟨(0xfe :: (C ++ rest)).drop ((0xfe :: (C ++ rest)).length - 9), ?_⟩
  simp only [serverRead, reduceIte]
  rw [if_neg hlt, e1, e2]

/-- A server `Read` of a `0xff` packet: the connection state is untouched and
the remaining buffer starts with the bytes that followed the `0xff`. -/
theorem serverRead_ff (c : ServerConn) (rest : List Nat) (n : Nat) :
    ∃ tail, serverRead c (0xff :: rest) n
      = some ((n : Int) - 1, rest ++ tail, c) := by
  have e1 : (0xff :: rest).drop 1 = rest := rfl
  refine ⟨(0xff :: rest).drop ((0xff :: rest).length - 1), ?_⟩
  simp only [serverRead, reduceIte]
  rw [e1, if_neg (by decide)]

/- ### Claim theorems -/

/-- C1. Client-ID framing round-trip: for every payload `P` and 8-byte client
ID `C`, the client-side framed conn in state `New` writes the packet
`0xfe ++ C ++ P`; a server-side framed conn reading that packet (into any
sufficiently large buffer) captures `C` as the client ID, sets
`clientIDReceived`, and delivers exactly `P` (count `P.length`, and the first
`P.length` bytes of the shifted buffer are `P`).  A subsequent write in state
`Acknowledged` produces `0xff ++ Q`, and the server read returns exactly `Q`
with `C` still recorded. -/
theorem claim_C1_framing_round_trip (C P Q junk junk2 : List Nat)
    (hC : C.length = 8) :
    ∃ buf1 buf2 : List Nat,
      serverRead ⟨List.replicate 8 0, false⟩
          ((clientWrite ⟨ClientState.stateNew, C⟩ P).1 ++ junk)
          (clientWrite ⟨ClientState.stateNew, C⟩ P).1.length
        = some ((P.length : Int), buf1, ⟨C, true⟩) ∧
      buf1.take P.length = P ∧
      serverRead ⟨C, true⟩
          ((clientWrite ⟨ClientState.acknowledged, C⟩ Q).1 ++ junk2)
          (clientWrite ⟨ClientState.acknowledged, C⟩ Q).1.length
        = some ((Q.length : Int), buf2, ⟨C, true⟩) ∧
      buf2.take Q.length = Q := by
  have hpkt1 : (clientWrite ⟨ClientState.stateNew, C⟩ P).1 ++ junk
      = 0xfe :: (C ++ (P ++ junk)) := by
    simp [clientWrite]
  have hpkt2 : (clientWrite ⟨ClientState.acknowledged, C⟩ Q).1 ++ junk2
      = 0xff :: (Q ++ junk2) := by
    simp [clientWrite]
  have hn1 : ((clientWrite ⟨ClientState.stateNew, C⟩ P).1.length : Int) - 9
      = (P.length : Int) := by
    simp [clientWrite, hC]
    omega
  have hn2 : ((clientWrite ⟨ClientState.acknowledged, C⟩ Q).1.length : Int) - 1
      = (Q.length : Int) := by
    simp [clientWrite]
  obtain ⟨tail1, h1⟩ := serverRead_fe ⟨List.replicate 8 0, false⟩ C (P ++ junk)
    (clientWrite ⟨ClientState.stateNew, C⟩ P).1.length hC
  obtain ⟨tail2, h2⟩ := serverRead_ff ⟨C, true⟩ (Q ++ junk2)
    (clientWrite ⟨ClientState.acknowledged, C⟩ Q).1.length
  refine ⟨(P ++ junk) ++ tail1, (Q ++ junk2) ++ tail2, ?_, ?_, ?_, ?_⟩
  · rw [hpkt1, h1, hn1]
  · rw [List.append_assoc]
    exact List.take_left P (junk ++ tail1)
  · rw [hpkt2, h2, hn2]
  · rw [List.append_assoc]
    exact List.take_left Q (junk2 ++ tail2)

/-- C1 witness: the round-trip at a concrete client ID and concrete payloads,
with trailing garbage in the server buffers. -/
theorem claim_C1_witness :
    ∃ buf1 buf2 : List Nat,
      serverRead ⟨List.replicate 8 0, false⟩
          ((clientWrite ⟨ClientState.stateNew, [1,2,3,4,5,6,7,8]⟩ [9,10]).1 ++ [11])
          (clientWrite ⟨ClientState.stateNew, [1,2,3,4,5,6,7,8]⟩ [9,10]).1.length
        = some ((([9,10] : List Nat).length : Int), buf1, ⟨[1,2,3,4,5,6,7,8], true⟩) ∧
      buf1.take ([9,10] : List Nat).length = [9,10] ∧
      serverRead ⟨[1,2,3,4,5,6,7,8], true⟩
          ((clientWrite ⟨ClientState.acknowledged, [1,2,3,4,5,6,7,8]⟩ [12]).1 ++ [13])
          (clientWrite ⟨ClientState.acknowledged, [1,2,3,4,5,6,7,8]⟩ [12]).1.length
        = some ((([12] : List Nat).length : Int), buf2, ⟨[1,2,3,4,5,6,7,8], true⟩) ∧
      buf2.take ([12] : List Nat).length = [12] :=
  claim_C1_framing_round_trip [1,2,3,4,5,6,7,8] [9,10] [12] [11] [13] rfl

/-- C9. For every buffer `buf`, a successful server-side framed `Write` sends
`0xff` followed by `buf` (`buf.length + 1` bytes on the underlying conn) with
a nil error, but the count it returns is `buf.length - 1` (as a Go `int`),
one less than the number of payload bytes accepted. -/
theorem claim_C9_server_write_undercount (buf : List Nat) :
    (serverWrite buf false).1 = 0xff :: buf ∧
    (serverWrite buf false).1.length = buf.length + 1 ∧
    (serverWrite buf false).2.1 = (buf.length : Int) - 1 ∧
    (serverWrite buf false).2.2 = none ∧
    (serverWrite buf false).2.1 < (buf.length : Int) := by
  refine ⟨rfl, by simp [serverWrite], rfl, rfl, ?_⟩
  show (buf.length : Int) - 1 < (buf.length : Int)
  omega

/-- C10. The server-side framed `Read` is only safe for well-formed inputs:
if the caller's buffer is shorter than 9 bytes and its first byte is `0xfe`,
the slice `buf[1:9]` is out of range and the operation is partial (`none`);
and if the underlying read returned `n < 9` bytes starting with `0xfe` into a
buffer of at least 9 bytes, `Read` returns the negative count `n - 9`. -/
theorem claim_C10_read_partiality (c : ServerConn) (buf : List Nat) (n : Nat)
    (hhead : buf.head? = some 0xfe) :
    (buf.length < 9 → serverRead c buf n = none) ∧
    (9 ≤ buf.length → n < 9 →
      ∃ rest cnew, serverRead c buf n = some ((n : Int) - 9, rest, cnew) ∧
        (n : Int) - 9 < 0) := by
  match buf with
  | [] => simp at hhead
  | b :: t =>
    have hb : b = 0xfe := by simpa using hhead
    subst hb
    constructor
    · intro hshort
      simp only [serverRead, reduceIte]
      rw [if_pos hshort]
    · intro hlong hn
      refine ⟨(0xfe :: t).drop 9 ++ (0xfe :: t).drop ((0xfe :: t).length - 9),
        ⟨((0xfe :: t).drop 1).take 8, true⟩, ?_, by omega⟩
      simp only [serverRead, reduceIte]
      rw [if_neg (by omega)]

/-- C10 witness: a 1-byte buffer starting `0xfe` panics; a 9-byte buffer into
which the underlying conn read only `n = 3` bytes yields the count `-6`. -/
theorem claim_C10_witness :
    serverRead ⟨List.replicate 8 0, false⟩ [0xfe] 1 = none ∧
    (∃ rest cnew, serverRead ⟨List.replicate 8 0, false⟩
        [0xfe, 0, 0, 0, 0, 0, 0, 0, 0] 3 = some ((3 : Int) - 9, rest, cnew) ∧
      (3 : Int) - 9 < 0) :=
  ⟨(claim_C10_read_partiality ⟨List.replicate 8 0, false⟩ [0xfe] 1 rfl).1
      (by decide),
   (claim_C10_read_partiality ⟨List.replicate 8 0, false⟩
      [0xfe, 0, 0, 0, 0, 0, 0, 0, 0] 3 rfl).2 (by decide) (by decide)⟩

/-- C5. Bounded response reading: for every reader, `limitedRead` with limit
`L` returns all bytes and no error when the reader yields at most `L` bytes,
and returns exactly the first `L` bytes together with an "unexpected EOF"
error when the reader yields more than `L` bytes; `Post` applies this with
`L = readLimit = 100000`. -/
theorem claim_C5_limited_read (data : List Nat) (limit : Nat) :
    (data.length ≤ limit → limitedRead data limit = (data, none)) ∧
    (limit < data.length →
      limitedRead data limit = (data.take limit, some "unexpected EOF")) ∧
    postReadBody data = limitedRead data 100000 := by
  refine ⟨?_, ?_, rfl⟩
  · intro hle
    have htake : data.take (limit + 1) = data :=
      List.take_of_length_le (by omega)
    simp only [limitedRead, htake]
    rw [if_neg (by omega)]
  · intro hgt
    have hlen : (data.take (limit + 1)).length = limit + 1 := by
      rw [List.length_take]
      omega
    simp only [limitedRead, hlen]
    rw [if_pos trivial, List.take_take]
    simp [Nat.min_eq_left (by omega : limit ≤ limit + 1)]

/-- C5 witness: a 3-byte body under a limit of 3 comes back whole; over a
limit of 2 it is truncated to 2 bytes with the "unexpected EOF" error; `Post`
reads with limit 100000. -/
theorem claim_C5_witness :
    limitedRead [1, 2, 3] 3 = ([1, 2, 3], none) ∧
    limitedRead [1, 2, 3] 2 = ([1, 2], some "unexpected EOF") ∧
    postReadBody [1, 2, 3] = limitedRead [1, 2, 3] 100000 :=
  ⟨(claim_C5_limited_read [1, 2, 3] 3).1 (by decide),
   (claim_C5_limited_read [1, 2, 3] 2).2.1 (by decide),
   (claim_C5_limited_read [1, 2, 3] 3).2.2⟩

/-- C6. For every value of the in-flight token count, the `numClients` field
sent in a broker poll request equals `floor(inFlight/8)*8`; hence it is a
multiple of 8 and is at most the in-flight count. -/
theorem claim_C6_num_clients (inFlight : Nat) :
    numClients inFlight = inFlight / 8 * 8 ∧
    8 ∣ numClients inFlight ∧
    numClients inFlight ≤ inFlight :=
  ⟨rfl, dvd_mul_left 8 (inFlight / 8), Nat.div_mul_le_self inFlight 8⟩

/-- C3 counterexample: the claim says the process-wide NAT state is only ever
set to `unrestricted` or `restricted`, so a determined value never regresses
to `unknown` on probe error — but the initial-probe error handler in
`SnowflakeProxy.Start` (lines 704-709) calls `setCurrentNATType(NATUnknown)`:
starting from the determined value `restricted`, a probe error leaves the
process-wide state `unknown`. -/
theorem claim_C3_counterexample :
    startInitialNATProbe NATType.restricted ProbeOutcome.earlyError
        = NATType.unknown ∧
    NATType.restricted ≠ NATType.unknown := by
  decide

/-- C3 amended: `checkNATType` itself leaves the state unchanged when a step
fails before the data-channel wait and otherwise only sets `unrestricted`
(channel opened) or `restricted` (timeout); the periodic retest keeps or
determines the state and never introduces `unknown`; but `Start` sets the
process-wide state to `unknown` whenever its initial probe returns an error,
so the state can regress to `unknown` on that path. -/
theorem claim_C3_amended_nat_state (st : NATType) (r : ProbeOutcome) :
    ((checkNATType st r).2 = true → (checkNATType st r).1 = st) ∧
    ((checkNATType st r).2 = false →
      (checkNATType st r).1 = NATType.unrestricted ∨
      (checkNATType st r).1 = NATType.restricted) ∧
    (periodicNATRetest st r = st ∨
      periodicNATRetest st r = NATType.unrestricted ∨
      periodicNATRetest st r = NATType.restricted) ∧
    startInitialNATProbe st ProbeOutcome.earlyError = NATType.unknown := by
  cases st <;> cases r <;> decide

/-- C3 witness: a failing probe run from state `restricted` leaves
`checkNATType`'s state untouched, and a successful probe run determines the
state. -/
theorem claim_C3_witness :
    (checkNATType NATType.restricted ProbeOutcome.earlyError).1
        = NATType.restricted ∧
    ((checkNATType NATType.restricted ProbeOutcome.channelOpened).1
        = NATType.unrestricted ∨
     (checkNATType NATType.restricted ProbeOutcome.channelOpened).1
        = NATType.restricted) :=
  ⟨(claim_C3_amended_nat_state NATType.restricted ProbeOutcome.earlyError).1 rfl,
   (claim_C3_amended_nat_state NATType.restricted ProbeOutcome.channelOpened).2.1
     rfl⟩

/-- C2 counterexample: `SnowflakeProxy.Stop` is `close(sf.shutdown)`; the
first call on a running proxy succeeds, but a second call closes an
already-closed channel and panics (`none`) instead of succeeding and changing
nothing. -/
theorem claim_C2_counterexample :
    stop false = some true ∧ (stop false).bind stop = none := by
  decide

/-- C2 amended: calling `Stop` once on a running proxy closes the shutdown
channel; calling it again panics (Go `close` of a closed channel), so `Stop`
is not idempotent and must be called at most once. -/
theorem claim_C2_amended_stop_once (s s' : Bool) (h : stop s = some s') :
    s' = true ∧ stop s' = none := by
  revert h
  cases s <;> cases s' <;> decide

/-- C2 witness: the amended statement at the concrete running-proxy state. -/
theorem claim_C2_witness : true = true ∧ stop true = none :=
  claim_C2_amended_stop_once false true rfl

/-- C7. Lossy non-blocking send: `WriteTo` on an open `MultiplexingPacketConn`
returns `(len(p), nil)` both when the packet is enqueued (queue below
capacity) and when it is dropped because the send queue is full; when the
conn has been closed it returns `(0, err)` where `err` is an `OpError`
carrying the stored first error; and `closeWithError` on an open conn is what
stores that first error (the given error, or `"operation on closed
connection"` when nil). -/
theorem claim_C7_write_to (c : MPConn) (p : List Nat) :
    (c.closed = false → writeTo c p = some ((p.length, none),
      if c.sendQueue.length < c.queueCap
      then { c with sendQueue := c.sendQueue ++ [p] } else c)) ∧
    (∀ e, c.closed = true → c.storedErr = some e →
      writeTo c p = some ((0, some ⟨"write", e⟩), c)) ∧
    (∀ c₀ e₀, c₀.closed = false →
      closeWithError c₀ e₀
        = some ({ c₀ with
                    closed := true
                    storedErr :=
                      some (e₀.getD "operation on closed connection") },
            none)) := by
  refine ⟨?_, ?_, ?_⟩
  · intro hopen
    by_cases hq : c.sendQueue.length < c.queueCap <;> simp [writeTo, hopen, hq]
  · intro e hclosed herr
    simp [writeTo, hclosed, herr]
  · intro c₀ e₀ h₀
    simp [closeWithError, h₀]

/-- C7 witness: on a concrete open conn with room the packet is enqueued with
result `(1, nil)`; on a full conn it is dropped with the same result; on a
closed conn the stored error comes back; and closing an open conn with a nil
error stores the default error. -/
theorem claim_C7_witness :
    writeTo ⟨false, none, [], 1⟩ [7]
      = some ((1, none), ⟨false, none, [[7]], 1⟩) ∧
    writeTo ⟨false, none, [[5]], 1⟩ [7]
      = some ((1, none), ⟨false, none, [[5]], 1⟩) ∧
    writeTo ⟨true, some "no route", [], 1⟩ [7]
      = some ((0, some ⟨"write", "no route"⟩), ⟨true, some "no route", [], 1⟩) ∧
    closeWithError ⟨false, none, [], 1⟩ none
      = some (⟨true, some "operation on closed connection", [], 1⟩, none) := by
  refine ⟨?_, ?_, ?_, ?_⟩
  · simpa using (claim_C7_write_to ⟨false, none, [], 1⟩ [7]).1 rfl
  · simpa using (claim_C7_write_to ⟨false, none, [[5]], 1⟩ [7]).1 rfl
  · exact (claim_C7_write_to ⟨true, some "no route", [], 1⟩ [7]).2.1
      "no route" rfl rfl
  · exact (claim_C7_write_to ⟨false, none, [], 1⟩ [7]).2.2
      ⟨false, none, [], 1⟩ none rfl

/-- C4. Relay-URL gate: for every session where the broker returned an offer
with a non-empty relay URL, if the URL's hostname does not match the
configured relay-domain pattern, or its scheme is not `wss` while non-TLS
relays are not allowed, then `runSession` calls `tokens.ret()` and returns
before `broker.sendAnswer` — the token is released and no answer is sent. -/
theorem claim_C4_relay_gate (resps : List BrokerResp)
    (parse : String → Option (String × String)) (isMember : String → Bool)
    (allowNonTLS : Bool) (offer relayURL host scheme : String)
    (hpoll : pollOffer resps = some (offer, relayURL))
    (hparse : parse relayURL = some (host, scheme))
    (hne : relayURL ≠ "")
    (hbad : isMember host = false ∨ (allowNonTLS = false ∧ scheme ≠ "wss")) :
    runSessionGate resps parse isMember allowNonTLS
      = GateOutcome.retTokenNoAnswer := by
  have hcond : (relayURL != ""
      && (!(isMember host) || (!allowNonTLS && scheme != "wss"))) = true := by
    simp only [Bool.and_eq_true, Bool.or_eq_true, Bool.not_eq_true',
      bne_iff_ne, ne_eq]
    refine ⟨hne, ?_⟩
    rcases hbad with h | ⟨ha, hs⟩
    · exact Or.inl h
    · exact Or.inr ⟨ha, hs⟩
  simp only [runSessionGate, hpoll, hparse]
  rw [if_pos hcond]

/-- C4 witness: a broker offer carrying the non-TLS relay URL
`ws://evil.example/` is rejected by the gate when the matcher refuses the
hostname and non-TLS relays are not allowed. -/
theorem claim_C4_witness :
    runSessionGate [BrokerResp.response "sdp" "ws://evil.example/" true]
      (fun _ => some ("evil.example", "ws")) (fun _ => false) false
      = GateOutcome.retTokenNoAnswer :=
  claim_C4_relay_gate _ _ _ _ "sdp" "ws://evil.example/" "evil.example" "ws"
    (by decide) rfl (by decide) (Or.inl rfl)

/-- C8 counterexample: the broker returns an empty offer and then a valid
offer; the poll loop polls again (returning the second offer), and the
session runner proceeds past the gate without ever calling `tokens.ret()` —
the empty response did not cause the token to be released, contradicting the
claim that the runner treats it as "no offer" and releases the token. -/
theorem claim_C8_counterexample :
    pollOffer [BrokerResp.response "" "" true,
        BrokerResp.response "sdp" "wss://snowflake.torproject.net/" true]
      = some ("sdp", "wss://snowflake.torproject.net/") ∧
    runSessionGate [BrokerResp.response "" "" true,
        BrokerResp.response "sdp" "wss://snowflake.torproject.net/" true]
      (fun _ => some ("snowflake.torproject.net", "wss")) (fun _ => true) false
      = GateOutcome.proceedPastGate := by
  decide

/-- C8 amended: whenever the broker returns an empty offer, the poll loop
waits for the 5-second ticker and polls again while still holding the token;
the empty response never reaches the session runner and no token is released
or consumed at that point — polling and the session outcome are exactly as if
the empty response had not occurred, and the runner releases the token only
when `pollOffer` returns no offer (shutdown or decode error). -/
theorem claim_C8_amended_empty_poll (u : String) (b : Bool)
    (rest : List BrokerResp) (parse : String → Option (String × String))
    (isMember : String → Bool) (allowNonTLS : Bool) :
    pollOffer (BrokerResp.response "" u b :: rest) = pollOffer rest ∧
    runSessionGate (BrokerResp.response "" u b :: rest) parse isMember
        allowNonTLS
      = runSessionGate rest parse isMember allowNonTLS := by
  have h : pollOffer (BrokerResp.response "" u b :: rest) = pollOffer rest := by
    simp [pollOffer]
  exact ⟨h, by simp only [runSessionGate, h]⟩
